import Mathlib

set_option maxRecDepth 8000

/-!
Verification development for the pain-point research agent in `src/app.py`.

The Python program is a sequential pipeline: a query generator builds query
strings from templates, an evidence extractor scans search results for fixed
keyword lists, and a fit scorer aggregates the extracted evidence into an
analysis record.  All of that logic is pure string/list processing, embedded
below as executable Lean definitions over `List Char` (Python strings) and
`List` (Python lists).  Python `int` is embedded as `Int` where the spec talks
about integer ranges, `Nat` for list counts.  The external search collaborator
(`TavilyClient.search`) is embedded as a function argument of type
`String → Except String (List RawResult)`: a raised exception is an `error`
value, a returned payload is `ok`.
-/

/-! ### String primitives

Python `needle in hay`, `hay.find(needle)`, `hay.lower()`, `s.strip()`,
`s.replace(a, b)` (single-character arguments), `s.title()`, modelled over the
character list underlying a `String`. -/

/-- Python substring containment `needle in hay` over character lists. -/
def containsSub (needle : List Char) : List Char → Bool
  | [] => needle.isEmpty
  | c :: t => needle.isPrefixOf (c :: t) || containsSub needle t

/-- Python `hay.find(needle)`: index of the first occurrence of `needle`.
When `needle` does not occur this returns `hay.length` (the Python code only
calls `find` after a successful containment test, where the two agree). -/
def findSub (needle : List Char) : List Char → Nat
  | [] => 0
  | c :: t => if needle.isPrefixOf (c :: t) then 0 else findSub needle t + 1

/-- Python `s.strip()`: drop whitespace from both ends. -/
def stripChars (l : List Char) : List Char :=
  ((l.dropWhile Char.isWhitespace).reverse.dropWhile Char.isWhitespace).reverse

/-- The character list of `s.lower()`. Python lowercases a string; the
program only ever compares ASCII keyword lists, for which the character-wise
`Char.toLower` is the same operation. -/
def lowerData (s : String) : List Char := s.data.map Char.toLower

/-- Python `s.replace(a, b)` for single-character `a`, `b`. -/
def replaceChar (a b : Char) (s : String) : String :=
  String.mk (s.data.map (fun c => if c = a then b else c))

/-- Helper for `pyTitle`: the boolean records whether the previous character
was alphabetic. -/
def titleAux : Bool → List Char → List Char
  | _, [] => []
  | prevAlpha, c :: t =>
    (if c.isAlpha then (if prevAlpha then c.toLower else c.toUpper) else c)
      :: titleAux c.isAlpha t

/-- Python `s.title()`: uppercase each letter that starts a run of letters,
lowercase the rest. -/
def pyTitle (s : String) : String := String.mk (titleAux false s.data)

/-- Python `any(keyword in text for keyword in kws)`. -/
def anyKeyword (kws : List String) (text : List Char) : Bool :=
  kws.any (fun k => containsSub k.data text)

/-- Python `list(set(l))` for the string lists built by the program, embedded
as first-occurrence deduplication.  Within one interpreter process CPython's
set iteration order is a fixed function of the set's contents, so a
deterministic dedup is a faithful model of one process run. -/
def dedupFirst (l : List String) : List String :=
  l.foldl (fun acc x => if x ∈ acc then acc else acc ++ [x]) []

/-! ### Data model (dictionaries built by `src/app.py`) -/

/-- One entry of `response['results']` as consumed by the program
(`result.get('title','')`, `result.get('url','')`, `result.get('content','')`). -/
structure RawResult where
  title : String
  url : String
  content : String
deriving Repr, DecidableEq

/-- One `source_info` dictionary (`research_company`, lines 107–113). -/
structure SourceRecord where
  title : String
  url : String
  content : String
  query : String
  time_period : String
deriving Repr, DecidableEq

/-- One entry of `analysis_data["sources"]` (line 181). -/
structure SourceInfo where
  url : String
  title : String
  time_period : String
deriving Repr, DecidableEq

/-- One entry of `analysis_data["may_2025_sources"]` (lines 161–166). -/
structure May2025Source where
  title : String
  url : String
  content : String
  query : String
deriving Repr, DecidableEq

/-- One research point built by `_extract_key_points` (lines 243–250). -/
structure ResearchPoint where
  point : String
  category : String
  source_url : String
  source_title : String
  relevance : String
  time_period : String
deriving Repr, DecidableEq

/-- One pain-point evidence entry built by `_extract_pain_points`
(lines 203–213). -/
structure PainPoint where
  pain_point_id : String
  pain_point_name : String
  evidence : String
  source_url : String
  source_title : String
  keyword_found : String
  iNube_solutions : List String
  confidence : String
  time_period : String
deriving Repr, DecidableEq

/-- The `analysis_data` dictionary returned by `research_company`
(lines 86–93, 180–184). -/
structure ResearchData where
  company_name : String
  company_url : String
  sources : List SourceInfo
  research_points : List ResearchPoint
  identified_pain_points : List PainPoint
  may_2025_sources : List May2025Source
deriving Repr, DecidableEq

/-- The `analysis` dictionary returned by `analyze_company_fit`
(lines 258–274). -/
structure AnalysisResult where
  company_name : String
  industry : String
  core_business : List String
  technology_stack : List String
  identified_challenges : List String
  validated_pain_points : List PainPoint
  digital_maturity : String
  potential_iNube_services : List String
  fit_justification : String
  recommendation : String
  confidence_score : Int
  sources : List SourceInfo
  pain_point_analysis : String
  client_potential_summary : String
  may_2025_sources : List May2025Source
deriving Repr, DecidableEq

/-! ### Static tables (`TavilyResearchAgent.__init__`, lines 22–68) -/

/-- The keys of `self.iNube_services` in insertion order (lines 22–29); the
fixed six-entry service catalog. -/
def iNube_service_ids : List String :=
  ["policy_administration", "claims_management", "digital_distribution",
   "ai_analytics", "field_operations", "embedded_insurance"]

/-- One entry of `self.pain_points_mapping`. -/
structure PainPointCategory where
  id : String
  keywords : List String
  iNube_solutions : List String
deriving Repr, DecidableEq

/-- `self.pain_points_mapping` (lines 32–68) in insertion order. -/
def pain_points_mapping : List PainPointCategory :=
  [⟨"legacy_systems",
    ["legacy system", "outdated technology", "old software", "system modernization",
     "technology upgrade", "digital transformation", "modernization challenge"],
    ["policy_administration", "digital_distribution", "claims_management"]⟩,
   ⟨"manual_processes",
    ["manual process", "paper-based", "manual data entry", "manual workflow",
     "manual intervention", "manual handling", "manual verification"],
    ["claims_management", "field_operations", "ai_analytics"]⟩,
   ⟨"customer_experience",
    ["customer satisfaction", "customer churn", "customer retention",
     "digital onboarding", "customer experience", "policyholder experience"],
    ["digital_distribution", "embedded_insurance", "policy_administration"]⟩,
   ⟨"fraud_detection",
    ["insurance fraud", "fraud detection", "false claims", "claims fraud",
     "fraud prevention", "fraudulent activities"],
    ["claims_management", "ai_analytics"]⟩,
   ⟨"operational_efficiency",
    ["operational efficiency", "process efficiency", "cost reduction",
     "streamline operations", "efficiency improvement", "operational cost"],
    ["policy_administration", "claims_management", "field_operations"]⟩,
   ⟨"data_analytics",
    ["data analytics", "business intelligence", "predictive analytics",
     "data-driven decisions", "analytics capability", "data insights"],
    ["ai_analytics", "claims_management"]⟩,
   ⟨"digital_transformation",
    ["digital transformation", "digital journey", "digital capability",
     "digital initiative", "technology adoption", "digital strategy"],
    ["digital_distribution", "embedded_insurance", "policy_administration"]⟩]

/-- The `categories` table of `_extract_key_points` (lines 225–232). -/
def key_point_categories : List (String × List String) :=
  [("business_model", ["services", "products", "business model", "offering", "solutions", "revenue"]),
   ("technology", ["technology", "digital", "software", "platform", "AI", "automation", "cloud", "IT"]),
   ("challenges", ["challenge", "problem", "issue", "limitation", "gap", "difficulty", "bottleneck"]),
   ("operations", ["operations", "process", "workflow", "efficiency", "cost", "manual", "legacy"]),
   ("growth", ["growth", "expansion", "market", "customer", "revenue", "premium", "profit"]),
   ("insurance", ["insurance", "policy", "claim", "underwriting", "premium", "risk", "coverage"])]

/-! ### Evidence extraction (`_extract_pain_points`, lines 186–216) -/

/-- The pain-point context window (lines 198–200): the slice of `content`
from `max(0, i - 150)` to `min(len(content), i + 300)` around the first
occurrence `i` of `kw` in the lowered content, stripped of whitespace.
Natural-number subtraction `i - 150` is Python's `max(0, i - 150)`. -/
def windowOf (content contentLower : List Char) (kw : String) : List Char :=
  let i := findSub kw.data contentLower
  stripChars ((content.take (min content.length (i + 300))).drop (i - 150))

/-- The pain-point dictionary appended at lines 203–213. -/
def mkPainPoint (ppId : String) (sols : List String) (context : List Char)
    (url title query kw : String) : PainPoint :=
  { pain_point_id := ppId
    pain_point_name := pyTitle (replaceChar '_' ' ' ppId)
    evidence := String.mk context
    source_url := url
    source_title := title
    keyword_found := kw
    iNube_solutions := sols
    confidence := if 100 < context.length then "high" else "medium"
    time_period := if containsSub ("2025").data query.data then "May 2025" else "General" }

/-- The inner keyword loop of `_extract_pain_points` (lines 196–214) for one
category: the first keyword contained in the lowered content stops the scan
(the `break` at line 214 sits inside the `if keyword in content_lower`
branch), and an evidence entry is appended only when the stripped window is
longer than 50 characters (line 202). -/
def extractCategory (content contentLower : List Char) (url title query : String)
    (ppId : String) (sols : List String) : List String → List PainPoint
  | [] => []
  | kw :: rest =>
    if containsSub kw.data contentLower then
      let context := windowOf content contentLower kw
      if 50 < context.length then
        [mkPainPoint ppId sols context url title query kw]
      else []
    else extractCategory content contentLower url title query ppId sols rest

/-- `_extract_pain_points` (lines 186–216). -/
def extract_pain_points (r : RawResult) (query : String) : List PainPoint :=
  pain_points_mapping.flatMap (fun c =>
    extractCategory r.content.data (lowerData r.content) r.url r.title query
      c.id c.iNube_solutions c.keywords)

/-- The inner keyword loop of `_extract_key_points` (lines 236–251): same
first-match-per-category shape, window 100 before / 200 after, no length
filter. -/
def extractKeyCategory (content contentLower : List Char) (url title query : String)
    (category : String) : List String → List ResearchPoint
  | [] => []
  | kw :: rest =>
    if containsSub kw.data contentLower then
      let i := findSub kw.data contentLower
      let context := stripChars ((content.take (min content.length (i + 200))).drop (i - 100))
      [{ point := String.mk context
         category := category
         source_url := url
         source_title := title
         relevance := "medium"
         time_period := if containsSub ("2025").data query.data then "May 2025" else "General" }]
    else extractKeyCategory content contentLower url title query category rest

/-- `_extract_key_points` (lines 218–253). -/
def extract_key_points (r : RawResult) (query : String) : List ResearchPoint :=
  key_point_categories.flatMap (fun c =>
    extractKeyCategory r.content.data (lowerData r.content) r.url r.title query c.1 c.2)

/-! ### The per-query research loop (`research_company`, lines 70–184) -/

/-- The three accumulators filled by one query loop of `research_company`:
`all_results`, `analysis_data["research_points"]`,
`analysis_data["identified_pain_points"]`. -/
structure QueryOutcome where
  all_results : List SourceRecord
  research_points : List ResearchPoint
  identified_pain_points : List PainPoint
deriving Repr, DecidableEq

/-- One query loop of `research_company` (lines 96–126 and 139–178): each
query is sent to the search collaborator; an exception (`Except.error`) is
caught and the loop continues with the remaining queries; a successful
response contributes one `SourceRecord` plus extracted points per result. -/
def runQueries (search : String → Except String (List RawResult))
    (time_period : String) : List String → QueryOutcome
  | [] => ⟨[], [], []⟩
  | q :: rest =>
    match search q with
    | Except.error _ => runQueries search time_period rest
    | Except.ok results =>
      let tail := runQueries search time_period rest
      { all_results :=
          results.map (fun r => ⟨r.title, r.url, r.content, q, time_period⟩) ++ tail.all_results
        research_points :=
          results.flatMap (fun r => extract_key_points r q) ++ tail.research_points
        identified_pain_points :=
          results.flatMap (fun r => extract_pain_points r q) ++ tail.identified_pain_points }

/-- `base_queries` (lines 74–83). -/
def base_queries (company_name : String) : List String :=
  [company_name ++ " challenges problems issues difficulties",
   company_name ++ " digital transformation legacy systems modernization",
   company_name ++ " operational efficiency cost reduction manual processes",
   company_name ++ " customer experience policyholder satisfaction churn",
   company_name ++ " claims processing fraud detection technology gaps",
   company_name ++ " technology stack IT systems software platforms",
   company_name ++ " financial results operational performance investor presentation",
   company_name ++ " news updates recent developments technology initiatives"]

/-- `may_2025_queries` (lines 130–137). -/
def may_2025_queries (company_name : String) : List String :=
  [company_name ++ " challenges 2025",
   company_name ++ " technology issues 2025",
   company_name ++ " digital transformation 2025",
   company_name ++ " operational efficiency 2025",
   company_name ++ " customer experience 2025",
   company_name ++ " insurance challenges 2025"]

/-- The truncation of line 164: `content[:500] + "..." if len(content) > 500`. -/
def truncate500 (content : String) : String :=
  if 500 < content.data.length then String.mk (content.data.take 500) ++ "..." else content

/-- `research_company` (lines 70–184), returning the
`(analysis_data, all_results)` pair.  The May-2025 phase runs only when
requested; its `may_2025_sources` entries are built per successful result
(lines 161–166), which equals mapping over that phase's collected results.
The set-comprehension dedup of `sources` (line 182) is embedded as
`dedupFirst` lifted to `SourceInfo` triples. -/
def research_company (search : String → Except String (List RawResult))
    (company_name company_url : String) (include_may_2025 : Bool) :
    ResearchData × List SourceRecord :=
  let g := runQueries search "General" (base_queries company_name)
  let m := if include_may_2025
    then runQueries search "May 2025" (may_2025_queries company_name)
    else ⟨[], [], []⟩
  let all_results := g.all_results ++ m.all_results
  let sourceList := all_results.map (fun r => SourceInfo.mk r.url r.title r.time_period)
  let sources :=
    (sourceList.foldl (fun acc x => if x ∈ acc then acc else acc ++ [x]) [])
  ({ company_name := company_name
     company_url := company_url
     sources := sources
     research_points := g.research_points ++ m.research_points
     identified_pain_points := g.identified_pain_points ++ m.identified_pain_points
     may_2025_sources :=
       m.all_results.map (fun r => ⟨r.title, r.url, truncate500 r.content, r.query⟩) },
   all_results)

/-! ### Fit scorer (`analyze_company_fit`, lines 255–331) -/

/-- `tech_keywords` (line 279). -/
def tech_keywords : List String :=
  ["legacy", "modernization", "digital", "automation", "AI", "cloud", "technology", "software"]

/-- `challenge_keywords` (line 280). -/
def challenge_keywords : List String :=
  ["cost", "efficiency", "manual", "slow", "integration", "compliance", "challenge", "problem"]

/-- `insurance_keywords` (line 281). -/
def insurance_keywords : List String :=
  ["policy", "claim", "underwriting", "premium", "insurance", "risk", "coverage"]

/-- The mutable state threaded through the research-point loop of
`analyze_company_fit` (lines 283–302). -/
structure LoopState where
  insurance_count : Nat
  tech_count : Nat
  challenge_count : Nat
  industry : String
  technology_stack : List String
  identified_challenges : List String
deriving Repr, DecidableEq

/-- Initial loop state: counters zero, `industry = "Unknown"`, empty lists
(lines 260–263, 283–285). -/
def initState : LoopState := ⟨0, 0, 0, "Unknown", [], []⟩

/-- Python `if x not in l: l.append(x)` (lines 296–297, 301–302). -/
def appendIfNew (l : List String) (x : String) : List String :=
  if x ∈ l then l else l ++ [x]

/-- Lines 290–292: the insurance-keyword branch of the loop body. -/
def stepInsurance (st : LoopState) (p : ResearchPoint) : LoopState :=
  if anyKeyword insurance_keywords (lowerData p.point) then
    { st with insurance_count := st.insurance_count + 1, industry := "Insurance" }
  else st

/-- Lines 294–297: the technology-keyword branch of the loop body. -/
def stepTech (st : LoopState) (p : ResearchPoint) : LoopState :=
  if anyKeyword tech_keywords (lowerData p.point) then
    { st with tech_count := st.tech_count + 1,
              technology_stack := appendIfNew st.technology_stack p.point }
  else st

/-- Lines 299–302: the challenge-keyword branch of the loop body. -/
def stepChallenge (st : LoopState) (p : ResearchPoint) : LoopState :=
  if anyKeyword challenge_keywords (lowerData p.point) then
    { st with challenge_count := st.challenge_count + 1,
              identified_challenges := appendIfNew st.identified_challenges p.point }
  else st

/-- One iteration of the loop at lines 287–302 (the three branches run in
source order on the same point). -/
def stepPoint (st : LoopState) (p : ResearchPoint) : LoopState :=
  stepChallenge (stepTech (stepInsurance st p) p) p

/-- The whole research-point loop (lines 287–302). -/
def pointLoop (st : LoopState) : List ResearchPoint → LoopState
  | [] => st
  | p :: ps => pointLoop (stepPoint st p) ps

/-- Lines 320–324: `min(100, min(50, count*15) + min(25, tech*5) + min(25, challenge*5))`
over Python integers. -/
def confidence_score_of (pain_point_count tech_count challenge_count : Nat) : Int :=
  min 100 (min 50 ((pain_point_count : Int) * 15)
    + min 25 ((tech_count : Int) * 5) + min 25 ((challenge_count : Int) * 5))

/-- Python `len([pp for pp in pps if pp.get('time_period') == 'May 2025'])`. -/
def mayCount (pps : List PainPoint) : Nat :=
  (pps.filter (fun pp => pp.time_period == "May 2025")).length

/-- The first-occurrence-ordered keys of the `pain_point_groups` dictionary
built at lines 344–347 (Python dicts preserve insertion order). -/
def groupIds (pps : List PainPoint) : List String :=
  dedupFirst (pps.map (fun pp => pp.pain_point_id))

/-- The group of evidences stored under one key of `pain_point_groups`. -/
def groupFor (pps : List PainPoint) (i : String) : List PainPoint :=
  pps.filter (fun pp => pp.pain_point_id == i)

/-- `_generate_client_potential_summary` (lines 333–380). -/
def generate_client_potential_summary (company_name : String)
    (pain_points : List PainPoint) (potential_services : List String) : String :=
  if pain_points = [] then
    "Limited client potential identified. No validated pain points with source evidence found."
  else
    let ids := groupIds pain_points
    let may_2025_count := mayCount pain_points
    let part1 := "Based on our research, " ++ company_name ++
      " demonstrates strong client potential for iNube Solutions due to validated business challenges across "
      ++ toString ids.length ++ " key areas."
    let part2 := if 0 < may_2025_count then
        " Found " ++ toString may_2025_count ++ " recent pain point evidence sources from May 2025."
      else ""
    let groupParts := ids.map (fun i =>
      let evidences := groupFor pain_points i
      let name := pyTitle (replaceChar '_' ' ' i)
      let recent := if (evidences.filter (fun ev => ev.time_period == "May 2025")) ≠ [] then " (Recent)" else ""
      let links := String.intercalate ", " ((evidences.take 2).enum.map (fun p =>
        "[Source " ++ toString (p.1 + 1) ++ "](" ++ p.2.source_url ++ ")"))
      "\n- **" ++ name ++ "**: " ++ toString evidences.length ++
        " validated evidence sources" ++ recent ++ " (" ++ links ++ ")")
    let part3 := if potential_services ≠ [] then
        "\nThese pain points can be directly addressed by iNube\x27s " ++
          String.intercalate ", "
            ((potential_services.map (fun s => pyTitle (replaceChar '_' ' ' s))).take 3) ++
          " solutions."
      else ""
    let part4 := if ids ≠ [] then
        "\nRecommended approach: Focus on " ++ replaceChar '_' ' ' (ids.headD "") ++
          " challenges with evidence-based proposals using the source URLs provided."
      else ""
    part1 ++ part2 ++ String.join groupParts ++ part3 ++ part4

/-- `_generate_pain_point_analysis` (lines 382–407). -/
def generate_pain_point_analysis (pain_points : List PainPoint) : String :=
  if pain_points = [] then
    "No specific pain points identified with supporting evidence."
  else
    let ids := groupIds pain_points
    let may_2025_count := mayCount pain_points
    let parts := ids.map (fun i =>
      let evidences := groupFor pain_points i
      let may := mayCount evidences
      let recent := if 0 < may then " (" ++ toString may ++ " recent)" else ""
      pyTitle (replaceChar '_' ' ' i) ++ ": " ++ toString evidences.length ++ " sources" ++ recent)
    let parts := if 0 < may_2025_count then
        parts ++ ["| May 2025 sources: " ++ toString may_2025_count]
      else parts
    String.intercalate " | " parts

/-- `_generate_justification` (lines 409–432). -/
def generate_justification (industry digital_maturity : String)
    (pain_points : List PainPoint) (potential_services : List String) : String :=
  let parts : List String := []
  let parts := if industry = "Insurance" then
      parts ++ ["Company operates in insurance sector, which aligns with iNube\x27s specialization."]
    else parts
  let n := pain_points.length
  let may := mayCount pain_points
  let parts := if 0 < n then
      parts ++ [if 0 < may then
          "Found " ++ toString n ++ " validated pain points (" ++ toString may ++
            " from May 2025) with source evidence."
        else
          "Found " ++ toString n ++ " validated pain points with source evidence."]
    else parts
  let parts := if digital_maturity = "low" ∨ digital_maturity = "medium" then
      parts ++ ["Digital maturity level (" ++ digital_maturity ++ ") indicates technology gaps."]
    else parts
  let parts := if potential_services ≠ [] then
      parts ++ ["iNube can address with: " ++
        String.intercalate ", " (potential_services.map (fun s => pyTitle (replaceChar '_' ' ' s)))]
    else parts
  if parts ≠ [] then String.intercalate " " parts
  else "Limited evidence of specific pain points found."

/-- `_generate_recommendation` (lines 434–454). -/
def generate_recommendation (confidence : Int) (pain_points : List PainPoint) : String :=
  let pain_point_count := pain_points.length
  let may_2025_count := mayCount pain_points
  if 70 ≤ confidence ∧ 2 ≤ pain_point_count then
    if 0 < may_2025_count then
      "STRONG RECOMMENDATION - Multiple validated pain points found with recent May 2025 source evidence"
    else
      "STRONG RECOMMENDATION - Multiple validated pain points found with source evidence"
  else if 50 ≤ confidence ∧ 1 ≤ pain_point_count then
    if 0 < may_2025_count then
      "MODERATE RECOMMENDATION - Validated pain points identified with recent May 2025 source URLs"
    else
      "MODERATE RECOMMENDATION - Validated pain points identified with source URLs"
  else if 30 ≤ confidence then
    "WEAK RECOMMENDATION - Some challenges identified but limited pain point evidence"
  else
    "INSUFFICIENT EVIDENCE - No validated pain points with source proof found"

/-- `analyze_company_fit` (lines 255–331). -/
def analyze_company_fit (rd : ResearchData) : AnalysisResult :=
  let validated := rd.identified_pain_points
  let pain_point_count := validated.length
  let st := pointLoop initState rd.research_points
  let digital_maturity :=
    if 5 < st.tech_count then "high" else if 2 < st.tech_count then "medium" else "low"
  let all_recommended_services := validated.flatMap (fun pp => pp.iNube_solutions)
  let potential0 := (dedupFirst all_recommended_services).take 6
  let potential :=
    if potential0 = [] ∧ (0 < st.challenge_count ∨ st.tech_count < 3) then
      iNube_service_ids.take 3
    else potential0
  let confidence_score := confidence_score_of pain_point_count st.tech_count st.challenge_count
  { company_name := rd.company_name
    industry := st.industry
    core_business := []
    technology_stack := st.technology_stack
    identified_challenges := st.identified_challenges
    validated_pain_points := validated
    digital_maturity := digital_maturity
    potential_iNube_services := potential
    fit_justification := generate_justification st.industry digital_maturity validated potential
    recommendation := generate_recommendation confidence_score validated
    confidence_score := confidence_score
    sources := rd.sources
    pain_point_analysis := generate_pain_point_analysis validated
    client_potential_summary :=
      generate_client_potential_summary rd.company_name validated potential
    may_2025_sources := rd.may_2025_sources }

/-! ### Spec-side definitions

These follow the words of the specification (not the code): they are the
quantities the spec's confidence-score formula and recommendation tiers are
stated over. -/

/-- From the spec: the number of research points containing a technology
keyword. -/
def techKeywordCount (rd : ResearchData) : Nat :=
  rd.research_points.countP (fun p => anyKeyword tech_keywords (lowerData p.point))

/-- From the spec: the number of research points containing a challenge
keyword. -/
def challengeKeywordCount (rd : ResearchData) : Nat :=
  rd.research_points.countP (fun p => anyKeyword challenge_keywords (lowerData p.point))

/-- From the spec: the number of distinct pain-point categories that have at
least one evidence entry. -/
def uniqueCategoryCount (rd : ResearchData) : Nat :=
  (dedupFirst (rd.identified_pain_points.map (fun pp => pp.pain_point_id))).length

/-- Modelled from the spec words of claim C1: the capped linear combination
`min(100, min(50, 15*uniqueCategoryCount) + min(25, 5*techKeywordCount) +
min(25, 5*challengeKeywordCount))`. -/
def spec_confidence_score (rd : ResearchData) : Int :=
  min 100 (min 50 (15 * (uniqueCategoryCount rd : Int))
    + min 25 (5 * (techKeywordCount rd : Int))
    + min 25 (5 * (challengeKeywordCount rd : Int)))

/-- Modelled from the spec words of claim C3: the four-tier step function of
the confidence score and the unique-category count. -/
def spec_recommendation_label (score : Int) (uniqueCategories : Nat) : String :=
  if 70 ≤ score ∧ 2 ≤ uniqueCategories then "Strong"
  else if 50 ≤ score ∧ 1 ≤ uniqueCategories then "Moderate"
  else if 30 ≤ score then "Weak"
  else "Insufficient/NotViable"

/-! ### Concrete inputs used by witnesses and counterexamples -/

/-- An evidence entry for `manual_processes`, as extraction would shape it. -/
def ppManual1 : PainPoint :=
  ⟨"manual_processes", "Manual Processes",
   "The claims team still relies on a manual process for every intake form it receives.",
   "https://example.com/a", "A", "manual process",
   ["claims_management", "field_operations", "ai_analytics"], "medium", "General"⟩

/-- A second `manual_processes` evidence entry from a different source. -/
def ppManual2 : PainPoint :=
  ⟨"manual_processes", "Manual Processes",
   "Underwriters describe a manual process behind each renewal that takes days to finish.",
   "https://example.com/b", "B", "manual process",
   ["claims_management", "field_operations", "ai_analytics"], "medium", "General"⟩

/-- Research data with two evidence entries in the same category and no
research points: total evidence count 2, unique category count 1. -/
def rd0 : ResearchData := ⟨"c", "u", [], [], [ppManual1, ppManual2], []⟩

/-- A research point whose lowered text contains a technology keyword
("digital") and a challenge keyword ("cost"). -/
def rpDigitalCost : ResearchPoint :=
  ⟨"digital cost", "technology", "https://example.com/p", "P", "medium", "General"⟩

/-- Research data with two same-category evidence entries and five
tech-and-challenge research points: code score 80, unique category count 1. -/
def rd1 : ResearchData :=
  ⟨"c", "u", [],
   [rpDigitalCost, rpDigitalCost, rpDigitalCost, rpDigitalCost, rpDigitalCost],
   [ppManual1, ppManual2], []⟩

/-- A record whose content contains the `manual_processes` keyword
"manual process" with a long context window. -/
def rC2 : RawResult :=
  ⟨"T2", "https://example.com/2",
   "the operations team depends on a manual process that slows down every request they handle today"⟩

/-- A record whose content contains the `legacy_systems` keyword
"legacy system" with a context window longer than 50 characters. -/
def rC4 : RawResult :=
  ⟨"T4", "https://example.com/4",
   "we struggle with a legacy system every single day because it is slow"⟩

/-- A record whose content contains the `customer_experience` keyword
"customer churn" with a long context window. -/
def rC5 : RawResult :=
  ⟨"T5", "https://example.com/5",
   "our customer churn keeps rising while the support teams drown in backlogged tickets"⟩

/-- Empty research data: no evidence, no research points. -/
def rdC7 : ResearchData := ⟨"c", "u", [], [], [], []⟩

/-- A concrete research-data value for the determinism witness. -/
def rdC9 : ResearchData := ⟨"Acme", "https://acme.example", [], [], [ppManual1], []⟩

/-- A record whose first matching `legacy_systems` keyword ("legacy system",
at index 0) has a stripped window of only 13 characters (the following 300
characters are spaces), while the later keyword "modernization challenge"
occurs further on with a long window. -/
def rC10 : RawResult :=
  ⟨"T10", "https://example.com/10",
   "legacy system" ++ String.mk (List.replicate 300 ' ') ++
     "modernization challenge is upon us and the whole organisation must respond with care and speed"⟩

/-! ### Helper lemmas -/

/-- The keyword loop of `_extract_pain_points` for one category, expressed
through `List.find?`: evidence comes from the first contained keyword only. -/
theorem extractCategory_eq_find (content contentLower : List Char)
    (url title query ppId : String) (sols : List String) (kws : List String) :
    extractCategory content contentLower url title query ppId sols kws =
      match kws.find? (fun kw => containsSub kw.data contentLower) with
      | none => []
      | some kw =>
        if 50 < (windowOf content contentLower kw).length then
          [mkPainPoint ppId sols (windowOf content contentLower kw) url title query kw]
        else [] := by
  induction kws with
  | nil => rfl
  | cons kw rest ih =>
    by_cases h : containsSub kw.data contentLower
    · simp [extractCategory, h, List.find?_cons_of_pos]
    · rw [List.find?_cons_of_neg _ (by simpa using h)]
      simpa [extractCategory, h] using ih

/-- `extractCategory` with no contained keyword yields nothing. -/
theorem extractCategory_find_none {content contentLower : List Char}
    {url title query ppId : String} {sols : List String} {kws : List String}
    (h : kws.find? (fun kw => containsSub kw.data contentLower) = none) :
    extractCategory content contentLower url title query ppId sols kws = [] := by
  rw [extractCategory_eq_find, h]

/-- `extractCategory` with a first contained keyword `kw` yields one entry
when the stripped window is long enough, nothing otherwise. -/
theorem extractCategory_find_some {content contentLower : List Char}
    {url title query ppId : String} {sols : List String} {kws : List String} {kw : String}
    (h : kws.find? (fun kw => containsSub kw.data contentLower) = some kw) :
    extractCategory content contentLower url title query ppId sols kws =
      if 50 < (windowOf content contentLower kw).length then
        [mkPainPoint ppId sols (windowOf content contentLower kw) url title query kw]
      else [] := by
  rw [extractCategory_eq_find, h]

/-- Membership characterization of `_extract_pain_points`: every produced
evidence entry comes from the first contained keyword of one category whose
stripped window is longer than 50 characters, and conversely. -/
theorem mem_extract_pain_points {r : RawResult} {q : String} {pp : PainPoint} :
    pp ∈ extract_pain_points r q ↔
      ∃ c ∈ pain_points_mapping, ∃ kw,
        c.keywords.find? (fun k => containsSub k.data (lowerData r.content)) = some kw ∧
        50 < (windowOf r.content.data (lowerData r.content) kw).length ∧
        pp = mkPainPoint c.id c.iNube_solutions
          (windowOf r.content.data (lowerData r.content) kw) r.url r.title q kw := by
  unfold extract_pain_points
  rw [List.mem_flatMap]
  constructor
  · rintro ⟨c, hc, hm⟩
    rcases hfind : c.keywords.find? (fun k => containsSub k.data (lowerData r.content)) with _ | kw
    · rw [extractCategory_find_none hfind] at hm; simp at hm
    · rw [extractCategory_find_some hfind] at hm
      by_cases hlen : 50 < (windowOf r.content.data (lowerData r.content) kw).length
      · rw [if_pos hlen] at hm
        simp only [List.mem_singleton] at hm
        exact ⟨c, hc, kw, hfind, hlen, hm⟩
      · rw [if_neg hlen] at hm; simp at hm
  · rintro ⟨c, hc, kw, hfind, hlen, rfl⟩
    refine ⟨c, hc, ?_⟩
    rw [extractCategory_find_some hfind, if_pos hlen]
    simp

/-- `extractCategory` never yields more than one evidence entry. -/
theorem length_extractCategory_le_one (content contentLower : List Char)
    (url title query ppId : String) (sols : List String) (kws : List String) :
    (extractCategory content contentLower url title query ppId sols kws).length ≤ 1 := by
  rcases hfind : kws.find? (fun kw => containsSub kw.data contentLower) with _ | kw
  · rw [extractCategory_find_none hfind]; simp
  · rw [extractCategory_find_some hfind]
    split <;> simp

/-- Every evidence entry produced by `extractCategory` carries the category's
id. -/
theorem pain_point_id_of_mem_extractCategory {content contentLower : List Char}
    {url title query ppId : String} {sols : List String} {kws : List String}
    {pp : PainPoint}
    (h : pp ∈ extractCategory content contentLower url title query ppId sols kws) :
    pp.pain_point_id = ppId := by
  rcases hfind : kws.find? (fun kw => containsSub kw.data contentLower) with _ | kw
  · rw [extractCategory_find_none hfind] at h; simp at h
  · rw [extractCategory_find_some hfind] at h
    rcases Decidable.em (50 < (windowOf content contentLower kw).length) with hl | hl
    · rw [if_pos hl] at h
      simp only [List.mem_singleton] at h
      subst h; rfl
    · rw [if_neg hl] at h; simp at h

/-- The category ids of `pain_points_mapping` determine the category. -/
theorem mapping_id_inj :
    ∀ c1 ∈ pain_points_mapping, ∀ c2 ∈ pain_points_mapping,
      c1.id = c2.id → c1 = c2 := by decide

/-- The category ids of `pain_points_mapping` are pairwise distinct. -/
theorem mapping_ids_nodup : (pain_points_mapping.map (fun c => c.id)).Nodup := by decide

/-- Every service id a category recommends belongs to the fixed catalog. -/
theorem mapping_sols_subset :
    ∀ c ∈ pain_points_mapping, ∀ s ∈ c.iNube_solutions, s ∈ iNube_service_ids := by decide

/-- Counting elements with a fixed category id across the per-category
flat-map: with at most one element per category, ids matching their category,
and distinct category ids, the count is at most one. -/
theorem countP_flatMap_le_one (cid : String) (f : PainPointCategory → List PainPoint) :
    ∀ L : List PainPointCategory,
      (∀ c ∈ L, (f c).length ≤ 1) →
      (∀ c ∈ L, ∀ pp ∈ f c, pp.pain_point_id = c.id) →
      (L.map (fun c => c.id)).Nodup →
      ((L.flatMap f).countP (fun pp => pp.pain_point_id == cid)) ≤ 1 := by
  intro L
  induction L with
  | nil => intro _ _ _; simp
  | cons c L ih =>
    intro h1 h2 h3
    rw [List.map_cons, List.nodup_cons] at h3
    rw [List.flatMap_cons, List.countP_append]
    by_cases hc : c.id = cid
    · have hrest : (L.flatMap f).countP (fun pp => pp.pain_point_id == cid) = 0 := by
        rw [List.countP_eq_zero]
        intro pp hpp
        rw [List.mem_flatMap] at hpp
        rcases hpp with ⟨c', hc', hpp⟩
        have hid := h2 c' (List.mem_cons_of_mem _ hc') pp hpp
        have hne : c'.id ≠ cid := by
          intro he
          have hmem : c'.id ∈ List.map (fun c => c.id) L := List.mem_map_of_mem _ hc'
          rw [he, ← hc] at hmem
          exact h3.1 hmem
        simp [hid, hne]
      rw [hrest, Nat.add_zero]
      exact le_trans (List.countP_le_length _) (h1 c (List.mem_cons_self _ _))
    · have hhead : (f c).countP (fun pp => pp.pain_point_id == cid) = 0 := by
        rw [List.countP_eq_zero]
        intro pp hpp
        have hid := h2 c (List.mem_cons_self _ _) pp hpp
        simp [hid, hc]
      rw [hhead, Nat.zero_add]
      exact ih (fun a ha => h1 a (List.mem_cons_of_mem _ ha))
        (fun a ha => h2 a (List.mem_cons_of_mem _ ha)) h3.2

/-- The insurance branch leaves `tech_count` unchanged. -/
theorem stepInsurance_tech_count (st : LoopState) (p : ResearchPoint) :
    (stepInsurance st p).tech_count = st.tech_count := by
  unfold stepInsurance; split <;> rfl

/-- The insurance branch leaves `challenge_count` unchanged. -/
theorem stepInsurance_challenge_count (st : LoopState) (p : ResearchPoint) :
    (stepInsurance st p).challenge_count = st.challenge_count := by
  unfold stepInsurance; split <;> rfl

/-- The technology branch increments `tech_count` exactly on a keyword hit. -/
theorem stepTech_tech_count (st : LoopState) (p : ResearchPoint) :
    (stepTech st p).tech_count =
      st.tech_count + (if anyKeyword tech_keywords (lowerData p.point) then 1 else 0) := by
  unfold stepTech; split <;> simp

/-- The technology branch leaves `challenge_count` unchanged. -/
theorem stepTech_challenge_count (st : LoopState) (p : ResearchPoint) :
    (stepTech st p).challenge_count = st.challenge_count := by
  unfold stepTech; split <;> rfl

/-- The challenge branch leaves `tech_count` unchanged. -/
theorem stepChallenge_tech_count (st : LoopState) (p : ResearchPoint) :
    (stepChallenge st p).tech_count = st.tech_count := by
  unfold stepChallenge; split <;> rfl

/-- The challenge branch increments `challenge_count` exactly on a keyword
hit. -/
theorem stepChallenge_challenge_count (st : LoopState) (p : ResearchPoint) :
    (stepChallenge st p).challenge_count =
      st.challenge_count + (if anyKeyword challenge_keywords (lowerData p.point) then 1 else 0) := by
  unfold stepChallenge; split <;> simp

/-- One loop iteration's effect on `tech_count`. -/
theorem stepPoint_tech_count (st : LoopState) (p : ResearchPoint) :
    (stepPoint st p).tech_count =
      st.tech_count + (if anyKeyword tech_keywords (lowerData p.point) then 1 else 0) := by
  unfold stepPoint
  rw [stepChallenge_tech_count, stepTech_tech_count, stepInsurance_tech_count]

/-- One loop iteration's effect on `challenge_count`. -/
theorem stepPoint_challenge_count (st : LoopState) (p : ResearchPoint) :
    (stepPoint st p).challenge_count =
      st.challenge_count + (if anyKeyword challenge_keywords (lowerData p.point) then 1 else 0) := by
  unfold stepPoint
  rw [stepChallenge_challenge_count, stepTech_challenge_count, stepInsurance_challenge_count]

/-- After the loop, `tech_count` is the number of research points whose
lowered text contains a technology keyword. -/
theorem pointLoop_tech_count (ps : List ResearchPoint) : ∀ st : LoopState,
    (pointLoop st ps).tech_count =
      st.tech_count + ps.countP (fun p => anyKeyword tech_keywords (lowerData p.point)) := by
  induction ps with
  | nil => intro st; simp [pointLoop]
  | cons p ps ih =>
    intro st
    rw [pointLoop, ih, stepPoint_tech_count, List.countP_cons]
    by_cases h : anyKeyword tech_keywords (lowerData p.point) <;> simp [h] <;> omega

/-- After the loop, `challenge_count` is the number of research points whose
lowered text contains a challenge keyword. -/
theorem pointLoop_challenge_count (ps : List ResearchPoint) : ∀ st : LoopState,
    (pointLoop st ps).challenge_count =
      st.challenge_count + ps.countP (fun p => anyKeyword challenge_keywords (lowerData p.point)) := by
  induction ps with
  | nil => intro st; simp [pointLoop]
  | cons p ps ih =>
    intro st
    rw [pointLoop, ih, stepPoint_challenge_count, List.countP_cons]
    by_cases h : anyKeyword challenge_keywords (lowerData p.point) <;> simp [h] <;> omega

/-- Elements of the fold behind `dedupFirst` come from the accumulator or the
list. -/
theorem mem_dedupFold (l : List String) : ∀ (acc : List String) (s : String),
    s ∈ l.foldl (fun acc x => if x ∈ acc then acc else acc ++ [x]) acc →
    s ∈ acc ∨ s ∈ l := by
  induction l with
  | nil => intro acc s h; exact Or.inl h
  | cons x xs ih =>
    intro acc s h
    rcases ih _ s h with h' | h'
    · dsimp only at h'
      by_cases hx : x ∈ acc
      · rw [if_pos hx] at h'
        exact Or.inl h'
      · rw [if_neg hx] at h'
        rcases List.mem_append.mp h' with h'' | h''
        · exact Or.inl h''
        · exact Or.inr (by simp at h''; simp [h''])
    · exact Or.inr (List.mem_cons_of_mem _ h')

/-- `dedupFirst` only keeps elements of its input. -/
theorem dedupFirst_subset {l : List String} {s : String} (h : s ∈ dedupFirst l) : s ∈ l := by
  rcases mem_dedupFold l [] s h with h' | h'
  · simp at h'
  · exact h'

/-- Elements of `l.take n` are elements of `l`. -/
theorem mem_of_mem_take' {α : Type} {l : List α} {n : Nat} {a : α} (h : a ∈ l.take n) :
    a ∈ l := (List.take_subset n l) h

/-- A query whose search call fails contributes nothing: the loop result on
`qs1 ++ q :: qs2` equals the result on `qs1 ++ qs2`. -/
theorem runQueries_skip (search : String → Except String (List RawResult))
    (time_period : String) (qs1 : List String) (q : String) (qs2 : List String)
    (e : String) (h : search q = Except.error e) :
    runQueries search time_period (qs1 ++ q :: qs2) =
      runQueries search time_period (qs1 ++ qs2) := by
  induction qs1 with
  | nil => simp only [List.nil_append]; rw [runQueries, h]
  | cons a t ih =>
    simp only [List.cons_append]
    rw [runQueries, runQueries]
    rcases ha : search a with e' | results
    · exact ih
    · rw [ih]

/-- When every query's search call fails, the loop yields nothing. -/
theorem runQueries_all_fail (search : String → Except String (List RawResult))
    (time_period : String) (qs : List String)
    (h : ∀ q ∈ qs, ∃ e, search q = Except.error e) :
    runQueries search time_period qs = ⟨[], [], []⟩ := by
  induction qs with
  | nil => rfl
  | cons q qs ih =>
    rcases h q (List.mem_cons_self _ _) with ⟨e, he⟩
    rw [runQueries, he]
    exact ih (fun a ha => h a (List.mem_cons_of_mem _ ha))

/-- When every query returns an empty result list, the loop yields nothing. -/
theorem runQueries_all_empty (search : String → Except String (List RawResult))
    (time_period : String) (qs : List String)
    (h : ∀ q ∈ qs, search q = Except.ok []) :
    runQueries search time_period qs = ⟨[], [], []⟩ := by
  induction qs with
  | nil => rfl
  | cons q qs ih =>
    rw [runQueries, h q (List.mem_cons_self _ _),
      ih (fun a ha => h a (List.mem_cons_of_mem _ ha))]
    rfl

/-- Every pain point accumulated by the query loop is the extraction output
of some result record and query. -/
theorem mem_runQueries_pain {search : String → Except String (List RawResult)}
    {time_period : String} {qs : List String} {pp : PainPoint}
    (h : pp ∈ (runQueries search time_period qs).identified_pain_points) :
    ∃ r q, pp ∈ extract_pain_points r q := by
  induction qs with
  | nil => simp [runQueries] at h
  | cons q qs ih =>
    rw [runQueries] at h
    rcases hs : search q with e | results
    · rw [hs] at h; exact ih h
    · rw [hs] at h
      rcases List.mem_append.mp h with h' | h'
      · rcases List.mem_flatMap.mp h' with ⟨r, _, hr⟩
        exact ⟨r, q, hr⟩
      · exact ih h'

/-- Every pain point in the research output is the extraction output of some
result record and query. -/
theorem mem_research_pain {search : String → Except String (List RawResult)}
    {company_name company_url : String} {include_may_2025 : Bool} {pp : PainPoint}
    (h : pp ∈ (research_company search company_name company_url include_may_2025).1.identified_pain_points) :
    ∃ r q, pp ∈ extract_pain_points r q := by
  unfold research_company at h
  simp only at h
  rcases List.mem_append.mp h with h' | h'
  · exact mem_runQueries_pain h'
  · rcases include_may_2025 with _ | _
    · simp at h'
    · exact mem_runQueries_pain h'

/-- `findSub` never exceeds the haystack's length. -/
theorem findSub_le_length (needle : List Char) : ∀ hay : List Char,
    findSub needle hay ≤ hay.length := by
  intro hay
  induction hay with
  | nil => simp [findSub]
  | cons c t ih =>
    rw [findSub]
    split
    · simp
    · simpa using ih

/-- Stripping whitespace yields a contiguous substring. -/
theorem stripChars_substring (l : List Char) : List.IsInfix (stripChars l) l := by
  have h1 : List.IsSuffix (l.dropWhile Char.isWhitespace) l := List.dropWhile_suffix _
  have h2 : List.IsSuffix
      ((l.dropWhile Char.isWhitespace).reverse.dropWhile Char.isWhitespace)
      (l.dropWhile Char.isWhitespace).reverse := List.dropWhile_suffix _
  rw [← List.reverse_reverse ((l.dropWhile Char.isWhitespace).reverse.dropWhile Char.isWhitespace)] at h2
  have h3 : List.IsPrefix
      ((l.dropWhile Char.isWhitespace).reverse.dropWhile Char.isWhitespace).reverse
      (l.dropWhile Char.isWhitespace) := List.reverse_suffix.mp h2
  exact h3.isInfix.trans h1.isInfix

/-- A drop of a take is a contiguous substring. -/
theorem slice_substring (l : List Char) (s e : Nat) :
    List.IsInfix ((l.take e).drop s) l :=
  (List.drop_suffix _ _).isInfix.trans (List.take_prefix _ _).isInfix

/-- The whole extracted window is a contiguous substring of the content. -/
theorem windowOf_substring (content contentLower : List Char) (kw : String) :
    List.IsInfix (windowOf content contentLower kw) content := by
  unfold windowOf
  exact (stripChars_substring _).trans (slice_substring _ _ _)

/-! ### Claim theorems -/

/-- C1 (counterexample): the claim says the confidence score is
`min(100, min(50, 15*uniqueCategoryCount) + ...)`, but the code (line 320)
multiplies the *total* evidence count `pain_point_count`, not the unique
category count.  On research data with two evidence entries of the same
category and no research points the code yields 30 while the claimed formula
yields 15. -/
theorem C1_counterexample :
    (analyze_company_fit rd0).confidence_score ≠ spec_confidence_score rd0 ∧
    (analyze_company_fit rd0).confidence_score = 30 ∧
    spec_confidence_score rd0 = 15 := by
  refine ⟨by decide, by decide, by decide⟩

/-- C1 (amended): the confidence score equals the capped linear combination
with the total evidence count `identified_pain_points.length` in place of the
unique category count; the technology and challenge counts are as the claim
states them (research points containing a technology / challenge keyword). -/
theorem C1_corrected (rd : ResearchData) :
    (analyze_company_fit rd).confidence_score =
      min 100 (min 50 (15 * (rd.identified_pain_points.length : Int))
        + min 25 (5 * (techKeywordCount rd : Int))
        + min 25 (5 * (challengeKeywordCount rd : Int))) := by
  have h : (analyze_company_fit rd).confidence_score =
      confidence_score_of rd.identified_pain_points.length
        (pointLoop initState rd.research_points).tech_count
        (pointLoop initState rd.research_points).challenge_count := rfl
  rw [h, pointLoop_tech_count, pointLoop_challenge_count]
  simp only [confidence_score_of, techKeywordCount, challengeKeywordCount, initState,
    Nat.zero_add]
  rw [Int.mul_comm 15, Int.mul_comm 5, Int.mul_comm 5]

/-- C2 (counterexample): the claim says a record whose lowered content
contains a category keyword yields exactly one evidence entry for that
(record, category) pair; but when the stripped context window of the first
matching keyword is at most 50 characters the code (line 202) yields zero.
The content "legacy system" contains the `legacy_systems` keyword
"legacy system" yet extraction produces no evidence at all. -/
theorem C2_counterexample :
    (∃ c ∈ pain_points_mapping, c.id = "legacy_systems" ∧ "legacy system" ∈ c.keywords) ∧
    containsSub ("legacy system").data (lowerData "legacy system") = true ∧
    extract_pain_points ⟨"t", "u", "legacy system"⟩ "q" = [] := by
  refine ⟨by decide, by decide, by decide⟩

/-- C2 (amended): at most one evidence entry is produced per
(record, category) pair; every produced entry's matched keyword is the first
keyword of the category's ordered list contained in the lowered content (the
scan stops there); and exactly one evidence entry is produced iff that first
matching keyword's stripped window exceeds 50 characters. -/
theorem C2_corrected (r : RawResult) (q : String) (c : PainPointCategory)
    (hc : c ∈ pain_points_mapping) :
    (extract_pain_points r q).countP (fun pp => pp.pain_point_id == c.id) ≤ 1 ∧
    (∀ pp ∈ extract_pain_points r q, pp.pain_point_id = c.id →
      c.keywords.find? (fun k => containsSub k.data (lowerData r.content)) =
        some pp.keyword_found ∧
      50 < (windowOf r.content.data (lowerData r.content) pp.keyword_found).length) ∧
    (∀ kw, c.keywords.find? (fun k => containsSub k.data (lowerData r.content)) = some kw →
      50 < (windowOf r.content.data (lowerData r.content) kw).length →
      (extract_pain_points r q).countP (fun pp => pp.pain_point_id == c.id) = 1) := by
  have hle : (extract_pain_points r q).countP (fun pp => pp.pain_point_id == c.id) ≤ 1 := by
    unfold extract_pain_points
    exact countP_flatMap_le_one c.id _ pain_points_mapping
      (fun c' _ => length_extractCategory_le_one _ _ _ _ _ _ _ _)
      (fun c' _ pp hpp => pain_point_id_of_mem_extractCategory hpp)
      mapping_ids_nodup
  refine ⟨hle, ?_, ?_⟩
  · intro pp hpp hid
    rcases mem_extract_pain_points.mp hpp with ⟨c', hc', kw, hfind, hlen, rfl⟩
    have he : c'.id = c.id := hid
    have hcc : c' = c := mapping_id_inj c' hc' c hc he
    subst hcc
    exact ⟨hfind, hlen⟩
  · intro kw hfind hlen
    have hmem : mkPainPoint c.id c.iNube_solutions
        (windowOf r.content.data (lowerData r.content) kw) r.url r.title q kw ∈
          extract_pain_points r q :=
      mem_extract_pain_points.mpr ⟨c, hc, kw, hfind, hlen, rfl⟩
    have hpos : 0 < (extract_pain_points r q).countP (fun pp => pp.pain_point_id == c.id) := by
      rw [List.countP_pos_iff]
      refine ⟨_, hmem, ?_⟩
      simp [mkPainPoint]
    omega

/-- C2 (witness): on a record whose content contains "manual process" as the
category's first matching keyword with a stripped window longer than 50
characters, exactly one `manual_processes` evidence entry is produced. -/
theorem C2_witness :
    (extract_pain_points rC2 "q").countP (fun pp => pp.pain_point_id == "manual_processes") = 1 :=
  (C2_corrected rC2 "q"
    ⟨"manual_processes",
     ["manual process", "paper-based", "manual data entry", "manual workflow",
      "manual intervention", "manual handling", "manual verification"],
     ["claims_management", "field_operations", "ai_analytics"]⟩
    (by decide)).2.2 "manual process" (by decide) (by decide)

/-- C3 (counterexample): the claim's step function keys on the
unique-category count, but the code (line 438) keys on the total evidence
count.  On research data with two same-category evidence entries and score
80 the code emits the Strong-tier string although the unique-category count
is 1, where the claimed step function gives the Moderate tier. -/
theorem C3_counterexample :
    (analyze_company_fit rd1).recommendation =
      "STRONG RECOMMENDATION - Multiple validated pain points found with source evidence" ∧
    (analyze_company_fit rd1).confidence_score = 80 ∧
    uniqueCategoryCount rd1 = 1 ∧
    spec_recommendation_label (analyze_company_fit rd1).confidence_score
      (uniqueCategoryCount rd1) = "Moderate" := by
  refine ⟨by decide, by decide, by decide, by decide⟩

/-- C3 (amended): the recommendation is the four-tier step function of the
confidence score and the *total* evidence count (Strong: score ≥ 70 and
count ≥ 2; Moderate: score ≥ 50 and count ≥ 1; Weak: score ≥ 30; else the
insufficient-evidence string), and when every query returns zero search
results the result carries the insufficient-evidence label, confidence score
0 and an empty evidence list. -/
theorem C3_corrected :
    (∀ rd : ResearchData,
      (analyze_company_fit rd).recommendation =
        (if 70 ≤ (analyze_company_fit rd).confidence_score ∧
            2 ≤ rd.identified_pain_points.length then
          (if 0 < mayCount rd.identified_pain_points then
            "STRONG RECOMMENDATION - Multiple validated pain points found with recent May 2025 source evidence"
          else
            "STRONG RECOMMENDATION - Multiple validated pain points found with source evidence")
        else if 50 ≤ (analyze_company_fit rd).confidence_score ∧
            1 ≤ rd.identified_pain_points.length then
          (if 0 < mayCount rd.identified_pain_points then
            "MODERATE RECOMMENDATION - Validated pain points identified with recent May 2025 source URLs"
          else
            "MODERATE RECOMMENDATION - Validated pain points identified with source URLs")
        else if 30 ≤ (analyze_company_fit rd).confidence_score then
          "WEAK RECOMMENDATION - Some challenges identified but limited pain point evidence"
        else
          "INSUFFICIENT EVIDENCE - No validated pain points with source proof found")) ∧
    (∀ (search : String → Except String (List RawResult)) (cn cu : String) (b : Bool),
      (∀ q, search q = Except.ok []) →
      (analyze_company_fit (research_company search cn cu b).1).recommendation =
        "INSUFFICIENT EVIDENCE - No validated pain points with source proof found" ∧
      (analyze_company_fit (research_company search cn cu b).1).confidence_score = 0 ∧
      (analyze_company_fit (research_company search cn cu b).1).validated_pain_points = []) := by
  constructor
  · intro rd
    rfl
  · intro search cn cu b h
    have hg := runQueries_all_empty search "General" (base_queries cn) (fun q _ => h q)
    have hm := runQueries_all_empty search "May 2025" (may_2025_queries cn) (fun q _ => h q)
    have hrd : (research_company search cn cu b).1 = ⟨cn, cu, [], [], [], []⟩ := by
      cases b <;> simp [research_company, hg, hm]
    rw [hrd]
    refine ⟨rfl, rfl, rfl⟩

/-- C3 (witness): the zero-results scenario at a concrete search function and
the company name from the spec scenario. -/
theorem C3_witness :
    (analyze_company_fit
        (research_company (fun _ => Except.ok []) "Acme Insurance" "https://acme.example" false).1).recommendation =
      "INSUFFICIENT EVIDENCE - No validated pain points with source proof found" ∧
    (analyze_company_fit
        (research_company (fun _ => Except.ok []) "Acme Insurance" "https://acme.example" false).1).confidence_score = 0 ∧
    (analyze_company_fit
        (research_company (fun _ => Except.ok []) "Acme Insurance" "https://acme.example" false).1).validated_pain_points = [] :=
  C3_corrected.2 (fun _ => Except.ok []) "Acme Insurance" "https://acme.example" false
    (fun _ => rfl)

/-- C4: every evidence entry surviving extraction has a stripped context
window strictly longer than 50 characters (line 202 discards the rest). -/
theorem C4_evidence_length (r : RawResult) (q : String) (pp : PainPoint)
    (h : pp ∈ extract_pain_points r q) : 50 < pp.evidence.length := by
  rcases mem_extract_pain_points.mp h with ⟨c, hc, kw, hfind, hlen, rfl⟩
  simpa [mkPainPoint, String.length] using hlen

/-- C4 (witness): the evidence extracted from a concrete record has a window
longer than 50 characters. -/
theorem C4_witness :
    50 < ((extract_pain_points rC4 "q").headD
      ⟨"", "", "", "", "", "", [], "", ""⟩).evidence.length :=
  C4_evidence_length rC4 "q" _ (by decide)

/-- C5: every produced context window is the slice of the content from
`max(0, i - 150)` to `min(len, i + 300)` around the first occurrence `i` of
the matched keyword, the two clamped indices are within the content's bounds
(start ≤ end ≤ length), and the stripped window is a contiguous substring of
the content — extraction never reaches outside the content string. -/
theorem C5_window_bounds (r : RawResult) (q : String) (pp : PainPoint)
    (h : pp ∈ extract_pain_points r q) :
    ∃ (kw : String) (i : Nat),
      i = findSub kw.data (lowerData r.content) ∧
      containsSub kw.data (lowerData r.content) = true ∧
      pp.evidence.data =
        stripChars ((r.content.data.take (min r.content.data.length (i + 300))).drop (i - 150)) ∧
      i - 150 ≤ min r.content.data.length (i + 300) ∧
      min r.content.data.length (i + 300) ≤ r.content.data.length ∧
      List.IsInfix pp.evidence.data r.content.data := by
  rcases mem_extract_pain_points.mp h with ⟨c, hc, kw, hfind, hlen, rfl⟩
  have hcont : containsSub kw.data (lowerData r.content) = true := by
    have h' := List.find?_some hfind
    simpa using h'
  have hi : findSub kw.data (lowerData r.content) ≤ (lowerData r.content).length :=
    findSub_le_length _ _
  have hlen' : (lowerData r.content).length = r.content.data.length := by
    simp [lowerData]
  refine ⟨kw, findSub kw.data (lowerData r.content), rfl, hcont, rfl, by omega, by omega, ?_⟩
  show List.IsInfix (windowOf r.content.data (lowerData r.content) kw) r.content.data
  exact windowOf_substring _ _ _

/-- C5 (witness): the window-bounds property at a concrete record. -/
theorem C5_witness :
    ∃ (kw : String) (i : Nat),
      i = findSub kw.data (lowerData rC5.content) ∧
      containsSub kw.data (lowerData rC5.content) = true ∧
      ((extract_pain_points rC5 "q").headD
          ⟨"", "", "", "", "", "", [], "", ""⟩).evidence.data =
        stripChars ((rC5.content.data.take (min rC5.content.data.length (i + 300))).drop (i - 150)) ∧
      i - 150 ≤ min rC5.content.data.length (i + 300) ∧
      min rC5.content.data.length (i + 300) ≤ rC5.content.data.length ∧
      List.IsInfix ((extract_pain_points rC5 "q").headD
          ⟨"", "", "", "", "", "", [], "", ""⟩).evidence.data rC5.content.data :=
  C5_window_bounds rC5 "q"
    ((extract_pain_points rC5 "q").headD ⟨"", "", "", "", "", "", [], "", ""⟩) (by decide)

/-- C6: for every research output, the recommended service list is a subset
of the fixed six-entry catalog; and when no pain-point category matched while
the fallback condition holds (challenge-keyword count > 0 or
technology-keyword count < 3), the list is the first three catalog entries. -/
theorem C6_services (search : String → Except String (List RawResult))
    (cn cu : String) (b : Bool) :
    (∀ s ∈ (analyze_company_fit (research_company search cn cu b).1).potential_iNube_services,
      s ∈ iNube_service_ids) ∧
    ((research_company search cn cu b).1.identified_pain_points = [] ∧
      (0 < challengeKeywordCount (research_company search cn cu b).1 ∨
        techKeywordCount (research_company search cn cu b).1 < 3) →
      (analyze_company_fit (research_company search cn cu b).1).potential_iNube_services =
        iNube_service_ids.take 3) := by
  have hpot : ∀ rd : ResearchData,
      (analyze_company_fit rd).potential_iNube_services =
        (if ((dedupFirst (rd.identified_pain_points.flatMap (fun pp => pp.iNube_solutions))).take 6) = [] ∧
            (0 < (pointLoop initState rd.research_points).challenge_count ∨
              (pointLoop initState rd.research_points).tech_count < 3) then
          iNube_service_ids.take 3
        else
          (dedupFirst (rd.identified_pain_points.flatMap (fun pp => pp.iNube_solutions))).take 6) :=
    fun rd => rfl
  constructor
  · intro s hs
    rw [hpot] at hs
    split at hs
    · exact mem_of_mem_take' hs
    · have hs' := dedupFirst_subset (mem_of_mem_take' hs)
      rcases List.mem_flatMap.mp hs' with ⟨pp, hpp, hsol⟩
      rcases mem_research_pain hpp with ⟨r, q, hr⟩
      rcases mem_extract_pain_points.mp hr with ⟨c, hc, kw, _, _, rfl⟩
      exact mapping_sols_subset c hc s hsol
  · rintro ⟨hemp, hcond⟩
    rw [hpot, hemp]
    have hch : (pointLoop initState (research_company search cn cu b).1.research_points).challenge_count =
        challengeKeywordCount (research_company search cn cu b).1 := by
      rw [pointLoop_challenge_count]
      simp [initState, challengeKeywordCount]
    have hte : (pointLoop initState (research_company search cn cu b).1.research_points).tech_count =
        techKeywordCount (research_company search cn cu b).1 := by
      rw [pointLoop_tech_count]
      simp [initState, techKeywordCount]
    rw [if_pos]
    refine ⟨by simp [dedupFirst], ?_⟩
    rw [hch, hte]
    exact hcond

/-- C6 (witness): with a search that returns empty result lists everywhere,
no category matches, the technology count is below three, and the
recommendation list is the first three catalog entries. -/
theorem C6_witness :
    (analyze_company_fit
        (research_company (fun _ => Except.ok []) "NoData Corp" "https://nodata.example" false).1).potential_iNube_services =
      iNube_service_ids.take 3 :=
  (C6_services (fun _ => Except.ok []) "NoData Corp" "https://nodata.example" false).2
    ⟨by decide, Or.inr (by decide)⟩

/-- C7: the confidence score is an integer in [0, 100] for every research
input, and empty evidence plus empty research points yield score exactly 0. -/
theorem C7_score_bounds (rd : ResearchData) :
    (0 ≤ (analyze_company_fit rd).confidence_score ∧
      (analyze_company_fit rd).confidence_score ≤ 100) ∧
    (rd.identified_pain_points = [] ∧ rd.research_points = [] →
      (analyze_company_fit rd).confidence_score = 0) := by
  have h : (analyze_company_fit rd).confidence_score =
      confidence_score_of rd.identified_pain_points.length
        (pointLoop initState rd.research_points).tech_count
        (pointLoop initState rd.research_points).challenge_count := rfl
  constructor
  · rw [h]
    unfold confidence_score_of
    constructor
    · have h1 : (0 : Int) ≤ (rd.identified_pain_points.length : Int) := Int.natCast_nonneg _
      have h2 : (0 : Int) ≤ ((pointLoop initState rd.research_points).tech_count : Int) :=
        Int.natCast_nonneg _
      have h3 : (0 : Int) ≤ ((pointLoop initState rd.research_points).challenge_count : Int) :=
        Int.natCast_nonneg _
      omega
    · omega
  · rintro ⟨h1, h2⟩
    rw [h, h1, h2]
    decide

/-- C7 (witness): the empty research input scores exactly 0. -/
theorem C7_witness : (analyze_company_fit rdC7).confidence_score = 0 :=
  (C7_score_bounds rdC7).2 ⟨rfl, rfl⟩

/-- C8: a search failure on one query is caught at single-query granularity —
dropping the failing query leaves the loop's result on the remaining queries
unchanged — and a request in which every query fails yields empty evidence
and research-point lists rather than an error. -/
theorem C8_error_isolation (search : String → Except String (List RawResult))
    (cn cu : String) (b : Bool) :
    (∀ (time_period : String) (qs1 : List String) (q : String) (qs2 : List String) (e : String),
      search q = Except.error e →
      runQueries search time_period (qs1 ++ q :: qs2) =
        runQueries search time_period (qs1 ++ qs2)) ∧
    ((∀ q, ∃ e, search q = Except.error e) →
      (research_company search cn cu b).1.identified_pain_points = [] ∧
      (research_company search cn cu b).1.research_points = []) := by
  constructor
  · intro tp qs1 q qs2 e he
    exact runQueries_skip search tp qs1 q qs2 e he
  · intro h
    have hg := runQueries_all_fail search "General" (base_queries cn) (fun q _ => h q)
    have hm := runQueries_all_fail search "May 2025" (may_2025_queries cn) (fun q _ => h q)
    cases b <;> exact ⟨by simp [research_company, hg, hm], by simp [research_company, hg, hm]⟩

/-- C8 (witness): with a search collaborator that always raises, the research
output's evidence list is empty. -/
theorem C8_witness :
    (research_company (fun _ => Except.error "network failure") "Acme"
        "https://acme.example" true).1.identified_pain_points = [] :=
  ((C8_error_isolation (fun _ => Except.error "network failure") "Acme"
      "https://acme.example" true).2 (fun _ => ⟨"network failure", rfl⟩)).1

/-- C9: the fit scorer is deterministic — equal research data yields equal
analysis results in every field, including the order of the recommended
services list. -/
theorem C9_deterministic (a b : ResearchData) (h : a = b) :
    analyze_company_fit a = analyze_company_fit b :=
  congrArg analyze_company_fit h

/-- C9 (witness): determinism at a concrete research input. -/
theorem C9_witness : analyze_company_fit rdC9 = analyze_company_fit rdC9 :=
  C9_deterministic rdC9 rdC9 rfl

/-- C10: when the first contained keyword of a category has a stripped window
of at most 50 characters, the category produces no evidence for that record
at all — the scan stopped at that keyword, so a later keyword of the same
category cannot contribute. -/
theorem C10_discarded_first_match (r : RawResult) (q : String)
    (c : PainPointCategory) (kw : String) (hc : c ∈ pain_points_mapping)
    (hfind : c.keywords.find? (fun k => containsSub k.data (lowerData r.content)) = some kw)
    (hlen : (windowOf r.content.data (lowerData r.content) kw).length ≤ 50) :
    (extract_pain_points r q).countP (fun pp => pp.pain_point_id == c.id) = 0 := by
  rw [List.countP_eq_zero]
  intro pp hpp
  rcases mem_extract_pain_points.mp hpp with ⟨c', hc', kw', hfind', hlen', rfl⟩
  simp only [mkPainPoint, beq_iff_eq]
  intro he
  have hcc : c' = c := mapping_id_inj c' hc' c hc he
  subst hcc
  rw [hfind'] at hfind
  injection hfind with hkw
  subst hkw
  omega

/-- C10 (witness): on the record whose first `legacy_systems` keyword
("legacy system", at index 0) sits in front of 300 spaces, the stripped
window has 13 characters, and the category yields no evidence even though
"modernization challenge" occurs later with a long window. -/
theorem C10_witness :
    (extract_pain_points rC10 "q").countP
      (fun pp => pp.pain_point_id == "legacy_systems") = 0 :=
  C10_discarded_first_match rC10 "q"
    ⟨"legacy_systems",
     ["legacy system", "outdated technology", "old software", "system modernization",
      "technology upgrade", "digital transformation", "modernization challenge"],
     ["policy_administration", "digital_distribution", "claims_management"]⟩
    "legacy system" (by decide) (by decide) (by decide)
